import Mathlib

/-!
# MiniLibraryManager — shallow embedding and verification

This file embeds the book-catalog state machine of the MiniLibraryManager
repository and proves properties of its operations.

The repository contains three iterations of the program:

* the DB-backed variant (`Book`, `addBook`, `listBooks`, `borrowBook`,
  `returnBook`, `addSampleBooks`, `menuSelector`) — the complete version,
  whose catalog lives in a SQLite table accessed through GORM; we model the
  table as a list of rows in insertion order (GORM's `CreatedAt` timestamps
  are strictly increasing in this order, and SQLite assigns each new row the
  id `max existing id + 1` since rows are never deleted);
* the `main.go` variant, where `addBook` writes to the database through a
  local variable that shadows the package-level slice `book`, while
  `listBooks`/`borrowBook`/`returnBook` still read that slice;
* an early prototype whose menu loop reads the choice once before the loop.
-/

namespace MiniLibrary

/-- One step of `strings.TrimSpace`: drop leading whitespace characters. -/
def dropLeadingWS : List Char → List Char
  | [] => []
  | c :: cs => if c.isWhitespace then dropLeadingWS cs else c :: cs

/-- `strings.TrimSpace`, as applied by `readInput` to every line read from
the user: drop leading and trailing whitespace. -/
def trimSpace (s : String) : String :=
  ⟨(dropLeadingWS (dropLeadingWS s.data).reverse).reverse⟩

/-- Lexicographic (byte-order) comparison of two character lists: the
collation SQLite applies for `Order("title")`. -/
def charListLe : List Char → List Char → Bool
  | [], _ => true
  | _ :: _, [] => false
  | c :: cs, d :: ds => if c < d then true else if d < c then false else charListLe cs ds

theorem charListLe_total :
    ∀ a b : List Char, charListLe a b = true ∨ charListLe b a = true
  | [], _ => Or.inl rfl
  | _ :: _, [] => Or.inr rfl
  | c :: cs, d :: ds => by
    simp only [charListLe]
    rcases lt_trichotomy c d with h | h | h
    · left; simp [h]
    · subst h
      simp only [lt_irrefl, if_false]
      exact charListLe_total cs ds
    · right; simp [h]

theorem charListLe_trans :
    ∀ a b c : List Char,
      charListLe a b = true → charListLe b c = true → charListLe a c = true
  | [], _, _ => fun _ _ => rfl
  | x :: xs, [], _ => fun h _ => by simp [charListLe] at h
  | _ :: _, _ :: _, [] => fun _ h => by simp [charListLe] at h
  | x :: xs, y :: ys, z :: zs => by
    simp only [charListLe]
    intro h1 h2
    by_cases hxy : x < y
    · by_cases hyz : y < z
      · simp [lt_trans hxy hyz]
      · by_cases hzy : z < y
        · simp [hyz, hzy] at h2
        · have hyz2 : y = z := le_antisymm (not_lt.mp hzy) (not_lt.mp hyz)
          subst hyz2
          simp [hxy]
    · by_cases hyx : y < x
      · simp [hxy, hyx] at h1
      · have hxy2 : x = y := le_antisymm (not_lt.mp hyx) (not_lt.mp hxy)
        subst hxy2
        simp only [lt_irrefl, if_false] at h1
        by_cases hxz : x < z
        · simp [hxz]
        · by_cases hzx : z < x
          · simp [hxz, hzx] at h2
          · have hxz2 : x = z := le_antisymm (not_lt.mp hzx) (not_lt.mp hxz)
            subst hxz2
            simp only [lt_irrefl, if_false] at h2 ⊢
            exact charListLe_trans xs ys zs h1 h2

/-- `Book` record (`type Book struct` in the DB-backed variant): ID, Title,
Author, Year, IsBorrowed.  `CreatedAt`/`UpdatedAt` are represented by the
row's position in the catalog list (timestamps are strictly increasing in
insertion order). -/
structure Book where
  id : Nat
  title : String
  author : String
  year : Int
  isBorrowed : Bool
deriving Repr, DecidableEq

/-- Default used to totalise list indexing (the Go code only indexes after a
bounds check, so this value is never actually selected). -/
def dummyBook : Book := ⟨0, "", "", 0, false⟩

/-- The catalog: the rows of the `books` table, in insertion order. -/
abbrev Catalog := List Book

/-- SQLite assigns a fresh primary key of `max existing rowid + 1`
(rows are never deleted, so this is always strictly larger than every
existing id). -/
def nextId (s : Catalog) : Nat := (s.foldr (fun b m => max b.id m) 0) + 1

/-- The ordering used by `Order("title")`: lexicographic comparison of the
title strings. -/
def titleLe (a b : Book) : Prop := charListLe a.title.data b.title.data = true

instance : DecidableRel titleLe := fun a b =>
  inferInstanceAs (Decidable (charListLe a.title.data b.title.data = true))

instance : IsTotal Book titleLe :=
  ⟨fun a b => charListLe_total a.title.data b.title.data⟩

instance : IsTrans Book titleLe :=
  ⟨fun a b c => charListLe_trans a.title.data b.title.data c.title.data⟩

/-- `db.Where("is_borrowed = ?", false).Order("title").Find(...)` — the
available books, sorted by title, as displayed by `borrowBook`. -/
def availableBooks (s : Catalog) : List Book :=
  List.insertionSort titleLe (s.filter (fun b => !b.isBorrowed))

/-- `db.Where("is_borrowed = ?", true).Order("title").Find(...)` — the
borrowed books, sorted by title, as displayed by `returnBook`. -/
def borrowedBooks (s : Catalog) : List Book :=
  List.insertionSort titleLe (s.filter (fun b => b.isBorrowed))

/-- `db.Order("created_at desc").Find(&allBooks)` — `listBooks` displays all
books newest first, i.e. in reverse insertion order. -/
def listBooks (s : Catalog) : List Book := s.reverse

/-- `Available: %d` counter computed at the end of `listBooks`. -/
def availableCount (s : Catalog) : Nat :=
  (s.filter (fun b => !b.isBorrowed)).length

/-- `Borrowed: %d` counter computed at the end of `listBooks`. -/
def borrowedCount (s : Catalog) : Nat :=
  (s.filter (fun b => b.isBorrowed)).length

/-- `db.Create(&b)`: insert a row, letting the store assign the fresh id. -/
def create (b : Book) (s : Catalog) : Catalog :=
  s ++ [⟨nextId s, b.title, b.author, b.year, b.isBorrowed⟩]

/-- Outcome of `addBook`: the three validation failures all print an error
and return before `db.Create`; on success the new record is returned. -/
inductive AddResult where
  | validationError
  | created (b : Book)
deriving Repr, DecidableEq

/-- `addBook` of the DB-backed variant.  `readInput` trims the raw line
(`strings.TrimSpace`), then the code rejects an empty title, an empty
author, and a year outside `[1000, 2030]`, in that order, before
`db.Create` appends the new record with `IsBorrowed: false`. -/
def addBook (title author : String) (year : Int) (s : Catalog) :
    AddResult × Catalog :=
  let t := trimSpace title
  if t = "" then (.validationError, s)
  else
    let a := trimSpace author
    if a = "" then (.validationError, s)
    else if year < 1000 ∨ year > 2030 then (.validationError, s)
    else
      let b : Book := ⟨nextId s, t, a, year, false⟩
      (.created b, s ++ [b])

/-- Outcome of `borrowBook`.  The DB-backed variant produces only the first
three; `alreadyBorrowed` is the outcome of the legacy `main.go` check
(`book[limit].isBorrowed`) and is included so both variants share one
result type. -/
inductive BorrowResult where
  | noBooks
  | outOfRange
  | alreadyBorrowed
  | borrowed (b : Book)
deriving Repr, DecidableEq

/-- Outcome of `returnBook`, mirroring `BorrowResult`. -/
inductive ReturnResult where
  | noBooks
  | outOfRange
  | notBorrowed
  | returned (b : Book)
deriving Repr, DecidableEq

/-- `db.Model(&selectedBook).Update("is_borrowed", v)`: update the
`is_borrowed` column of the row(s) with the selected primary key. -/
def setBorrowed (bookId : Nat) (v : Bool) (s : Catalog) : Catalog :=
  s.map (fun b => if b.id = bookId then ⟨b.id, b.title, b.author, b.year, v⟩ else b)

/-- `borrowBook` of the DB-backed variant: re-query the available list
(title order), bail out if it is empty, read a selector, reject it unless
`1 ≤ number ≤ len`, then set the selected row's flag to true. -/
def borrowBook (number : Int) (s : Catalog) : BorrowResult × Catalog :=
  let avail := availableBooks s
  if avail.length = 0 then (.noBooks, s)
  else if number < 1 ∨ number > (avail.length : Int) then (.outOfRange, s)
  else
    let selected := avail.getD (number - 1).toNat dummyBook
    (.borrowed selected, setBorrowed selected.id true s)

/-- `returnBook` of the DB-backed variant: re-query the borrowed list
(title order), bail out if it is empty, read a selector, reject it unless
`1 ≤ number ≤ len`, then set the selected row's flag to false. -/
def returnBook (number : Int) (s : Catalog) : ReturnResult × Catalog :=
  let borrowed := borrowedBooks s
  if borrowed.length = 0 then (.noBooks, s)
  else if number < 1 ∨ number > (borrowed.length : Int) then (.outOfRange, s)
  else
    let selected := borrowed.getD (number - 1).toNat dummyBook
    (.returned selected, setBorrowed selected.id false s)

/-- The eight sample records of `addSampleBooks` (ids are zero here: they
are assigned by `db.Create`).  Two of them are created with the borrowed
flag already true. -/
def sampleBooks : List Book :=
  [⟨0, "The Go Programming Language", "Alan Donovan", 2015, false⟩,
   ⟨0, "Clean Code", "Robert Martin", 2008, false⟩,
   ⟨0, "Design Patterns", "Gang of Four", 1994, true⟩,
   ⟨0, "The Pragmatic Programmer", "Andy Hunt", 1999, false⟩,
   ⟨0, "Effective Go", "Google Team", 2020, false⟩,
   ⟨0, "You Don't Know JS", "Kyle Simpson", 2014, false⟩,
   ⟨0, "Python Crash Course", "Eric Matthes", 2019, true⟩,
   ⟨0, "The Art of Computer Programming", "Donald Knuth", 1968, false⟩]

/-- `addSampleBooks`: `db.Create` each sample record in order. -/
def addSampleBooks (s : Catalog) : Catalog :=
  sampleBooks.foldl (fun acc b => create b acc) s

/-- One interactive operation of the DB-backed variant, as a relation on
catalog states (`listBooks` reads but never writes). -/
inductive Step : Catalog → Catalog → Prop where
  | add (t a : String) (y : Int) (s : Catalog) : Step s (addBook t a y s).2
  | list (s : Catalog) : Step s s
  | borrow (n : Int) (s : Catalog) : Step s (borrowBook n s).2
  | ret (n : Int) (s : Catalog) : Step s (returnBook n s).2

/-- `selectedBook := availableBooks[number-1]` in `borrowBook`. -/
def selectedAvail (number : Int) (s : Catalog) : Book :=
  (availableBooks s).getD (number - 1).toNat dummyBook

/-- `selectedBook := borrowedBooks[number-1]` in `returnBook`. -/
def selectedBorrowed (number : Int) (s : Catalog) : Book :=
  (borrowedBooks s).getD (number - 1).toNat dummyBook

/-- The identifiers present in a catalog. -/
def catalogIds (s : Catalog) : List Nat := s.map (fun b => b.id)

namespace MainGo

/-- State of the `main.go` variant: the rows created by `db.Create` plus the
package-level slice `book` that the legacy `listBooks`/`borrowBook`/
`returnBook` code still reads.  (We model `initDB` as having been run, as
the file's own `initDB` intends.) -/
structure MainState where
  dbBooks : List Book
  book : List Book
deriving Repr, DecidableEq

/-- `addBook` of `main.go`: no input validation; the local variable
`book := Book{...}` shadows the package-level slice, so `db.Create`
appends a row and the slice is left untouched. -/
def addBook (title author : String) (year : Int) (s : MainState) : MainState :=
  ⟨s.dbBooks ++ [⟨nextId s.dbBooks, title, author, year, false⟩], s.book⟩

/-- `listBooks` of `main.go`: reads the global slice; `none` is the
"There are no books to display." branch. -/
def listBooks (s : MainState) : Option (List Book) :=
  if s.book.length = 0 then none else some s.book

/-- `borrowBook` of `main.go`: operates on the global slice; `limit :=
number - 1` must satisfy `0 ≤ limit < len(book)`, and a book whose flag is
already set is rejected (`has already been borrowed`). -/
def borrowBook (number : Int) (s : MainState) : BorrowResult × MainState :=
  if s.book.length = 0 then (.noBooks, s)
  else
    let limit := number - 1
    if limit < 0 ∨ limit ≥ (s.book.length : Int) then (.outOfRange, s)
    else
      let b := s.book.getD limit.toNat dummyBook
      if b.isBorrowed then (.alreadyBorrowed, s)
      else
        (.borrowed b,
          ⟨s.dbBooks, s.book.set limit.toNat ⟨b.id, b.title, b.author, b.year, true⟩⟩)

/-- `returnBook` of `main.go`, mirror of its `borrowBook` with the
`NotBorrowed` check (`has already been returned!`). -/
def returnBook (number : Int) (s : MainState) : ReturnResult × MainState :=
  if s.book.length = 0 then (.noBooks, s)
  else
    let limit := number - 1
    if limit < 0 ∨ limit ≥ (s.book.length : Int) then (.outOfRange, s)
    else
      let b := s.book.getD limit.toNat dummyBook
      if !b.isBorrowed then (.notBorrowed, s)
      else
        (.returned b,
          ⟨s.dbBooks, s.book.set limit.toNat ⟨b.id, b.title, b.author, b.year, false⟩⟩)

/-- States of the `main.go` variant reachable from startup (empty slice,
empty table) through its menu operations. -/
inductive Reachable : MainState → Prop where
  | init : Reachable ⟨[], []⟩
  | add (t a : String) (y : Int) {s : MainState} :
      Reachable s → Reachable (addBook t a y s)
  | borrow (n : Int) {s : MainState} :
      Reachable s → Reachable (borrowBook n s).2
  | ret (n : Int) {s : MainState} :
      Reachable s → Reachable (returnBook n s).2

end MainGo

/-- The four operations the menu dispatches to. -/
inductive MenuAction where
  | add
  | list
  | borrow
  | ret
deriving Repr, DecidableEq

/-- Result of one evaluation of the `switch option` in `menuSelector`. -/
inductive MenuStep where
  | dispatched (a : MenuAction)
  | exited
  | invalid
deriving Repr, DecidableEq

/-- The `switch option` statement of `menuSelector` (identical in the
DB-backed variant and in `main.go`): cases 1-4 call the four operations,
case 5 returns, any other value prints the invalid-option message and the
loop shows the menu again. -/
def menuStep (option : Int) : MenuStep :=
  if option = 1 then .dispatched .add
  else if option = 2 then .dispatched .list
  else if option = 3 then .dispatched .borrow
  else if option = 4 then .dispatched .ret
  else if option = 5 then .exited
  else .invalid

/-- `menuSelector` run on a finite sequence of menu choices: `some ops` if
a `5` terminates the loop after dispatching `ops` in order, `none` if the
loop is still running (waiting for more input) after the whole sequence. -/
def menuSelector : List Int → Option (List MenuAction)
  | [] => none
  | o :: rest =>
    match menuStep o with
    | .exited => some []
    | .dispatched a => (menuSelector rest).map (fun as => a :: as)
    | .invalid => menuSelector rest

/-- A catalog holding one freshly added, available book (the spec's
`Add("Dune","Frank Herbert",1965)` scenario). -/
def duneCatalog : Catalog := [⟨1, "Dune", "Frank Herbert", 1965, false⟩]

/-- The same catalog after the book has been borrowed. -/
def borrowedCatalog : Catalog := [⟨1, "Dune", "Frank Herbert", 1965, true⟩]

/-- Two available books whose title order is the reverse of their creation
order. -/
def orderingDemo : Catalog :=
  [⟨1, "Alpha", "A", 2000, false⟩, ⟨2, "Zulu", "B", 2001, false⟩]

/-- One available and one borrowed book. -/
def mixedCatalog : Catalog :=
  [⟨1, "Alpha", "A", 2000, false⟩, ⟨2, "Zulu", "B", 2001, true⟩]

/-! ## Helper lemmas -/

theorem id_le_fold :
    ∀ (s : Catalog), ∀ b ∈ s, b.id ≤ s.foldr (fun b m => max b.id m) 0
  | [], b, hb => absurd hb (List.not_mem_nil b)
  | c :: t, b, hb => by
    rcases List.mem_cons.mp hb with h | h
    · subst h; exact le_max_left _ _
    · exact le_trans (id_le_fold t b h) (le_max_right _ _)

theorem id_lt_nextId {s : Catalog} {b : Book} (hb : b ∈ s) : b.id < nextId s :=
  Nat.lt_succ_of_le (id_le_fold s b hb)

theorem nextId_not_mem (s : Catalog) : nextId s ∉ catalogIds s := by
  intro h
  obtain ⟨b, hb, hid⟩ := List.mem_map.mp h
  exact absurd hid (Nat.ne_of_lt (id_lt_nextId hb))

theorem mem_availableBooks {b : Book} {s : Catalog} :
    b ∈ availableBooks s ↔ b ∈ s ∧ b.isBorrowed = false := by
  unfold availableBooks
  rw [(List.perm_insertionSort titleLe _).mem_iff, List.mem_filter]
  simp

theorem mem_borrowedBooks {b : Book} {s : Catalog} :
    b ∈ borrowedBooks s ↔ b ∈ s ∧ b.isBorrowed = true := by
  unfold borrowedBooks
  rw [(List.perm_insertionSort titleLe _).mem_iff, List.mem_filter]

theorem getD_mem_of_lt {l : List Book} {i : Nat} (h : i < l.length) (d : Book) :
    l.getD i d ∈ l := by
  rw [List.getD_eq_getElem l d h]
  exact List.getElem_mem h

theorem length_setBorrowed (bookId : Nat) (v : Bool) (s : Catalog) :
    (setBorrowed bookId v s).length = s.length :=
  List.length_map s _

theorem getD_setBorrowed (bookId : Nat) (v : Bool) (s : Catalog) {i : Nat}
    (h : i < s.length) :
    (setBorrowed bookId v s).getD i dummyBook =
      (if (s.getD i dummyBook).id = bookId then
        ⟨(s.getD i dummyBook).id, (s.getD i dummyBook).title,
          (s.getD i dummyBook).author, (s.getD i dummyBook).year, v⟩
      else s.getD i dummyBook) := by
  have h2 : i < (setBorrowed bookId v s).length := by
    rw [length_setBorrowed]; exact h
  rw [List.getD_eq_getElem _ _ h2, List.getD_eq_getElem _ _ h]
  simp only [setBorrowed, List.getElem_map]

theorem setBorrowed_getD_flag {bookId : Nat} {v : Bool} {s : Catalog} {i : Nat}
    (h : ((setBorrowed bookId v s).getD i dummyBook).isBorrowed ≠
      (s.getD i dummyBook).isBorrowed) :
    ((setBorrowed bookId v s).getD i dummyBook).isBorrowed = v ∧
      (s.getD i dummyBook).isBorrowed = !v := by
  by_cases hi : i < s.length
  · rw [getD_setBorrowed bookId v s hi] at h ⊢
    by_cases hid : (s.getD i dummyBook).id = bookId
    · rw [if_pos hid] at h ⊢
      refine ⟨rfl, ?_⟩
      cases hv : (s.getD i dummyBook).isBorrowed <;> cases v <;> simp_all
    · rw [if_neg hid] at h
      exact absurd rfl h
  · have hi2 : (setBorrowed bookId v s).length ≤ i := by
      rw [length_setBorrowed]; omega
    rw [List.getD_eq_default _ _ hi2, List.getD_eq_default _ _ (by omega)] at h
    exact absurd rfl h

theorem setBorrowed_getD_frame (bookId : Nat) (v : Bool) (s : Catalog) (i : Nat) :
    ((setBorrowed bookId v s).getD i dummyBook).id = (s.getD i dummyBook).id ∧
    ((setBorrowed bookId v s).getD i dummyBook).title = (s.getD i dummyBook).title ∧
    ((setBorrowed bookId v s).getD i dummyBook).author = (s.getD i dummyBook).author ∧
    ((setBorrowed bookId v s).getD i dummyBook).year = (s.getD i dummyBook).year := by
  by_cases hi : i < s.length
  · rw [getD_setBorrowed bookId v s hi]
    by_cases hid : (s.getD i dummyBook).id = bookId
    · rw [if_pos hid]; exact ⟨rfl, rfl, rfl, rfl⟩
    · rw [if_neg hid]; exact ⟨rfl, rfl, rfl, rfl⟩
  · have hi2 : (setBorrowed bookId v s).length ≤ i := by
      rw [length_setBorrowed]; omega
    rw [List.getD_eq_default _ _ hi2, List.getD_eq_default _ _ (by omega)]
    exact ⟨rfl, rfl, rfl, rfl⟩

theorem isBorrowed_of_mem_setBorrowed {c : Book} {bookId : Nat} {v : Bool}
    {s : Catalog} (hc : c ∈ setBorrowed bookId v s) (hid : c.id = bookId) :
    c.isBorrowed = v := by
  obtain ⟨b, hb, hbc⟩ := List.mem_map.mp hc
  by_cases h : b.id = bookId
  · rw [if_pos h] at hbc
    rw [← hbc]
  · rw [if_neg h] at hbc
    subst hbc
    exact absurd hid h

theorem catalogIds_setBorrowed (bookId : Nat) (v : Bool) (s : Catalog) :
    catalogIds (setBorrowed bookId v s) = catalogIds s := by
  unfold catalogIds setBorrowed
  rw [List.map_map]
  apply List.map_congr_left
  intro b _
  by_cases h : b.id = bookId
  · simp [h]
  · simp [h]

theorem addBook_cases (t a : String) (y : Int) (s : Catalog) :
    addBook t a y s = (.validationError, s) ∨
    addBook t a y s =
      (.created ⟨nextId s, trimSpace t, trimSpace a, y, false⟩,
        s ++ [⟨nextId s, trimSpace t, trimSpace a, y, false⟩]) := by
  by_cases h1 : trimSpace t = ""
  · left; simp [addBook, h1]
  · by_cases h2 : trimSpace a = ""
    · left; simp [addBook, h1, h2]
    · by_cases h3 : y < 1000 ∨ y > 2030
      · left; simp only [addBook, if_neg h1, if_neg h2, if_pos h3]
      · right; simp only [addBook, if_neg h1, if_neg h2, if_neg h3]

theorem borrowBook_spec (n : Int) (s : Catalog) :
    (borrowBook n s = (.noBooks, s) ∧ (availableBooks s).length = 0) ∨
    (borrowBook n s = (.outOfRange, s) ∧
      (n < 1 ∨ n > ((availableBooks s).length : Int))) ∨
    ((availableBooks s).length ≠ 0 ∧ 1 ≤ n ∧ n ≤ ((availableBooks s).length : Int) ∧
      borrowBook n s =
        (.borrowed (selectedAvail n s), setBorrowed (selectedAvail n s).id true s)) := by
  by_cases h1 : (availableBooks s).length = 0
  · left
    exact ⟨by simp [borrowBook, h1], h1⟩
  · by_cases h2 : n < 1 ∨ n > ((availableBooks s).length : Int)
    · right; left
      refine ⟨?_, h2⟩
      simp only [borrowBook, if_neg h1, if_pos h2]
    · right; right
      refine ⟨h1, by omega, by omega, ?_⟩
      simp only [borrowBook, if_neg h1, if_neg h2, selectedAvail]

theorem returnBook_spec (n : Int) (s : Catalog) :
    (returnBook n s = (.noBooks, s) ∧ (borrowedBooks s).length = 0) ∨
    (returnBook n s = (.outOfRange, s) ∧
      (n < 1 ∨ n > ((borrowedBooks s).length : Int))) ∨
    ((borrowedBooks s).length ≠ 0 ∧ 1 ≤ n ∧ n ≤ ((borrowedBooks s).length : Int) ∧
      returnBook n s =
        (.returned (selectedBorrowed n s),
          setBorrowed (selectedBorrowed n s).id false s)) := by
  by_cases h1 : (borrowedBooks s).length = 0
  · left
    exact ⟨by simp [returnBook, h1], h1⟩
  · by_cases h2 : n < 1 ∨ n > ((borrowedBooks s).length : Int)
    · right; left
      refine ⟨?_, h2⟩
      simp only [returnBook, if_neg h1, if_pos h2]
    · right; right
      refine ⟨h1, by omega, by omega, ?_⟩
      simp only [returnBook, if_neg h1, if_neg h2, selectedBorrowed]

theorem selectedAvail_mem {n : Int} {s : Catalog}
    (h1 : 1 ≤ n) (h2 : n ≤ ((availableBooks s).length : Int)) :
    selectedAvail n s ∈ availableBooks s := by
  unfold selectedAvail
  exact getD_mem_of_lt (by omega) dummyBook

theorem selectedBorrowed_mem {n : Int} {s : Catalog}
    (h1 : 1 ≤ n) (h2 : n ≤ ((borrowedBooks s).length : Int)) :
    selectedBorrowed n s ∈ borrowedBooks s := by
  unfold selectedBorrowed
  exact getD_mem_of_lt (by omega) dummyBook

theorem menuStep_exited_iff (o : Int) : menuStep o = .exited ↔ o = 5 := by
  unfold menuStep
  split_ifs with h1 h2 h3 h4 h5 <;> simp_all

/-! ## Claim theorems -/

/-- **C2**: for every input triple, `addBook` fails with a validation error
whenever the title is empty after trimming, or the author is empty after
trimming, or the year lies outside `[1000, 2030]`; in every such case it
returns before `db.Create`, so the catalog is unchanged and no record is
created. -/
theorem C2_add_rejects_invalid (title author : String) (year : Int) (s : Catalog)
    (h : trimSpace title = "" ∨ trimSpace author = "" ∨ year < 1000 ∨ year > 2030) :
    addBook title author year s = (.validationError, s) := by
  by_cases h1 : trimSpace title = ""
  · simp [addBook, h1]
  · by_cases h2 : trimSpace author = ""
    · simp [addBook, h1, h2]
    · have h3 : year < 1000 ∨ year > 2030 := by tauto
      simp only [addBook, if_neg h1, if_neg h2, if_pos h3]

/-- Witness for C2: a whitespace-only title, an empty author and an
out-of-range year are each rejected without touching the catalog. -/
theorem C2_add_rejects_invalid_witness :
    addBook "   " "Frank Herbert" 1965 duneCatalog = (.validationError, duneCatalog) ∧
    addBook "Dune" "" 1965 duneCatalog = (.validationError, duneCatalog) ∧
    addBook "Dune" "Frank Herbert" 2500 duneCatalog = (.validationError, duneCatalog) :=
  ⟨C2_add_rejects_invalid "   " "Frank Herbert" 1965 duneCatalog (Or.inl (by decide)),
   C2_add_rejects_invalid "Dune" "" 1965 duneCatalog (Or.inr (Or.inl (by decide))),
   C2_add_rejects_invalid "Dune" "Frank Herbert" 2500 duneCatalog
     (Or.inr (Or.inr (Or.inr (by decide))))⟩

/-- **C5**: whenever a nonempty filtered list has been displayed, a selector
that is `0`, negative, or greater than that list's length makes `borrowBook`
(resp. `returnBook`) fail with the out-of-range message, leaving every book
record unchanged.  (With an empty filtered list both operations return the
neutral no-books message before even reading a selector, as the spec's
edge-case policy states.) -/
theorem C5_selector_out_of_range (n : Int) (s : Catalog) :
    ((availableBooks s).length ≠ 0 →
      (n < 1 ∨ n > ((availableBooks s).length : Int)) →
      borrowBook n s = (.outOfRange, s)) ∧
    ((borrowedBooks s).length ≠ 0 →
      (n < 1 ∨ n > ((borrowedBooks s).length : Int)) →
      returnBook n s = (.outOfRange, s)) := by
  constructor
  · intro h1 h2
    simp only [borrowBook, if_neg h1, if_pos h2]
  · intro h1 h2
    simp only [returnBook, if_neg h1, if_pos h2]

/-- Witness for C5: selector 0 rejected by borrow, selector 5 rejected by
ret, on a catalog with one available and one borrowed book. -/
theorem C5_selector_out_of_range_witness :
    borrowBook 0 mixedCatalog = (.outOfRange, mixedCatalog) ∧
    returnBook 5 mixedCatalog = (.outOfRange, mixedCatalog) :=
  ⟨(C5_selector_out_of_range 0 mixedCatalog).1 (by decide) (Or.inl (by decide)),
   (C5_selector_out_of_range 5 mixedCatalog).2 (by decide) (Or.inr (by decide))⟩

/-- **C6**: for every valid input triple, `addBook` appends exactly one new
record — carrying the trimmed title and author and the given year, with the
borrowed flag false and an identifier fresh with respect to the whole
catalog — and a subsequent `listBooks` shows exactly the new book (newest
first) followed by the previous listing. -/
theorem C6_add_then_list (title author : String) (year : Int) (s : Catalog)
    (h1 : trimSpace title ≠ "") (h2 : trimSpace author ≠ "")
    (h3 : 1000 ≤ year) (h4 : year ≤ 2030) :
    addBook title author year s =
      (.created ⟨nextId s, trimSpace title, trimSpace author, year, false⟩,
        s ++ [⟨nextId s, trimSpace title, trimSpace author, year, false⟩]) ∧
    nextId s ∉ catalogIds s ∧
    listBooks (s ++ [⟨nextId s, trimSpace title, trimSpace author, year, false⟩]) =
      ⟨nextId s, trimSpace title, trimSpace author, year, false⟩ :: listBooks s := by
  refine ⟨?_, nextId_not_mem s, ?_⟩
  · have h5 : ¬(year < 1000 ∨ year > 2030) := by omega
    simp only [addBook, if_neg h1, if_neg h2, if_neg h5]
  · simp [listBooks]

/-- Witness for C6: adding `("Dune", "Frank Herbert", 1965)` to the empty
catalog creates exactly the record with id 1, and `listBooks` then shows
it. -/
theorem C6_add_then_list_witness :
    addBook "Dune" "Frank Herbert" 1965 [] =
      (.created ⟨1, "Dune", "Frank Herbert", 1965, false⟩,
        [⟨1, "Dune", "Frank Herbert", 1965, false⟩]) ∧
    listBooks [⟨1, "Dune", "Frank Herbert", 1965, false⟩] =
      [⟨1, "Dune", "Frank Herbert", 1965, false⟩] := by
  obtain ⟨hadd, -, hlist⟩ :=
    C6_add_then_list "Dune" "Frank Herbert" 1965 []
      (by decide) (by decide) (by decide) (by decide)
  exact ⟨hadd, hlist⟩

/-- Counterexample to C1 as stated: in the DB-backed variant, add
`("Dune","Frank Herbert",1965)`, borrow it (which succeeds), then attempt a
second borrow with the same selector.  The second attempt fails with the
neutral no-books message — not with an already-borrowed error — because
`borrowBook` re-queries the available list (from which the book has
disappeared) and contains no already-borrowed branch at all.  The catalog is
left unchanged by the failed attempt. -/
theorem C1_counterexample :
    (borrowBook 1 (addBook "Dune" "Frank Herbert" 1965 []).2).1 =
      .borrowed ⟨1, "Dune", "Frank Herbert", 1965, false⟩ ∧
    (borrowBook 1 (borrowBook 1 (addBook "Dune" "Frank Herbert" 1965 []).2).2).1 =
      .noBooks ∧
    (borrowBook 1 (borrowBook 1 (addBook "Dune" "Frank Herbert" 1965 []).2).2).1 ≠
      .alreadyBorrowed ∧
    (borrowBook 1 (borrowBook 1 (addBook "Dune" "Frank Herbert" 1965 []).2).2).2 =
      (borrowBook 1 (addBook "Dune" "Frank Herbert" 1965 []).2).2 := by
  decide

/-- **C1** (amended): a borrow with an in-range selector always succeeds and
targets a book whose flag is false, setting it to true; after the success no
book with the borrowed book's identifier appears in the re-queried available
list, so the same book can never be selected again — a borrow therefore
succeeds on it exactly once; every failing borrow leaves the catalog
unchanged; and `borrowBook` never produces an already-borrowed error (that
outcome exists only in the legacy `main.go` slice code). -/
theorem C1_borrow_succeeds_once :
    (∀ (n : Int) (s : Catalog), (borrowBook n s).1 ≠ BorrowResult.alreadyBorrowed) ∧
    (∀ (n : Int) (s : Catalog),
      1 ≤ n → n ≤ ((availableBooks s).length : Int) →
      (selectedAvail n s).isBorrowed = false ∧
      borrowBook n s =
        (.borrowed (selectedAvail n s), setBorrowed (selectedAvail n s).id true s)) ∧
    (∀ (n : Int) (s s2 : Catalog) (b : Book),
      borrowBook n s = (.borrowed b, s2) →
      ∀ c ∈ availableBooks s2, c.id ≠ b.id) ∧
    (∀ (n : Int) (s : Catalog),
      (borrowBook n s).1 = .noBooks ∨ (borrowBook n s).1 = .outOfRange →
      (borrowBook n s).2 = s) := by
  refine ⟨?_, ?_, ?_, ?_⟩
  · intro n s
    rcases borrowBook_spec n s with ⟨h, -⟩ | ⟨h, -⟩ | ⟨-, -, -, h⟩ <;>
      rw [h] <;> simp
  · intro n s h1 h2
    rcases borrowBook_spec n s with ⟨-, h0⟩ | ⟨-, h0⟩ | ⟨-, -, -, h⟩
    · omega
    · omega
    · refine ⟨?_, h⟩
      exact (mem_availableBooks.mp (selectedAvail_mem h1 h2)).2
  · intro n s s2 b h c hc
    rcases borrowBook_spec n s with ⟨h0, -⟩ | ⟨h0, -⟩ | ⟨-, -, -, h0⟩ <;>
      rw [h0] at h
    · simp at h
    · simp at h
    · rw [Prod.mk.injEq] at h
      obtain ⟨hb, hs2⟩ := h
      rw [BorrowResult.borrowed.injEq] at hb
      subst hb
      subst hs2
      intro hid
      obtain ⟨hcmem, hcflag⟩ := mem_availableBooks.mp hc
      have : c.isBorrowed = true := isBorrowed_of_mem_setBorrowed hcmem hid
      rw [hcflag] at this
      exact Bool.false_ne_true this
  · intro n s h
    rcases borrowBook_spec n s with ⟨h0, -⟩ | ⟨h0, -⟩ | ⟨-, -, -, h0⟩ <;> rw [h0]
    rw [h0] at h
    rcases h with h | h <;> simp at h

/-- Witness for C1: on the catalog holding the freshly added Dune record,
the first borrow succeeds (hypotheses `1 ≤ 1 ≤ length` discharged
concretely), the selected book's flag was false, an out-of-range second
call mutates nothing, and no call returns the already-borrowed outcome. -/
theorem C1_borrow_succeeds_once_witness :
    (selectedAvail 1 duneCatalog).isBorrowed = false ∧
    borrowBook 1 duneCatalog =
      (.borrowed (selectedAvail 1 duneCatalog),
        setBorrowed (selectedAvail 1 duneCatalog).id true duneCatalog) ∧
    (borrowBook 1 duneCatalog).1 ≠ .alreadyBorrowed ∧
    (borrowBook 2 duneCatalog).2 = duneCatalog := by
  obtain ⟨h1, h2, -, h4⟩ := C1_borrow_succeeds_once
  obtain ⟨hflag, hsucc⟩ := h2 1 duneCatalog (by decide) (by decide)
  exact ⟨hflag, hsucc, h1 1 duneCatalog, h4 2 duneCatalog (Or.inr (by decide))⟩

/-- Counterexample to C8 as stated: a return attempt aimed at the
never-borrowed Dune book fails with the neutral no-books-borrowed message —
not with a not-borrowed error — because `returnBook` re-queries the borrowed
list, which does not contain the book, and has no not-borrowed branch.  The
catalog is left unchanged. -/
theorem C8_counterexample :
    (returnBook 1 duneCatalog).1 = .noBooks ∧
    (returnBook 1 duneCatalog).1 ≠ .notBorrowed ∧
    (returnBook 1 duneCatalog).2 = duneCatalog := by
  decide

/-- **C8** (amended): a book whose flag is false never appears in the
displayed borrowed list, so a return can never target it: when no book is
borrowed, any return attempt fails with the neutral no-books message and
leaves the catalog unchanged; a successful return always targets a book
whose flag was true; and `returnBook` never produces a not-borrowed error
(that outcome exists only in the legacy `main.go` slice code). -/
theorem C8_return_never_not_borrowed :
    (∀ (n : Int) (s : Catalog), (returnBook n s).1 ≠ ReturnResult.notBorrowed) ∧
    (∀ (n : Int) (s : Catalog),
      borrowedCount s = 0 → returnBook n s = (.noBooks, s)) ∧
    (∀ (n : Int) (s : Catalog),
      1 ≤ n → n ≤ ((borrowedBooks s).length : Int) →
      (selectedBorrowed n s).isBorrowed = true ∧
      returnBook n s =
        (.returned (selectedBorrowed n s),
          setBorrowed (selectedBorrowed n s).id false s)) := by
  refine ⟨?_, ?_, ?_⟩
  · intro n s
    rcases returnBook_spec n s with ⟨h, -⟩ | ⟨h, -⟩ | ⟨-, -, -, h⟩ <;>
      rw [h] <;> simp
  · intro n s h
    have hlen : (borrowedBooks s).length = 0 := by
      unfold borrowedBooks
      rw [(List.perm_insertionSort titleLe _).length_eq]
      exact h
    simp only [returnBook, if_pos hlen]
  · intro n s h1 h2
    rcases returnBook_spec n s with ⟨-, h0⟩ | ⟨-, h0⟩ | ⟨-, -, -, h⟩
    · omega
    · omega
    · refine ⟨?_, h⟩
      exact (mem_borrowedBooks.mp (selectedBorrowed_mem h1 h2)).2

/-- Witness for C8: with only the never-borrowed Dune book, a return
attempt gives the neutral failure and mutates nothing; on the catalog where
Dune is borrowed, returning it succeeds and its flag was true. -/
theorem C8_return_never_not_borrowed_witness :
    returnBook 1 duneCatalog = (.noBooks, duneCatalog) ∧
    (returnBook 1 duneCatalog).1 ≠ .notBorrowed ∧
    (selectedBorrowed 1 borrowedCatalog).isBorrowed = true ∧
    returnBook 1 borrowedCatalog =
      (.returned (selectedBorrowed 1 borrowedCatalog),
        setBorrowed (selectedBorrowed 1 borrowedCatalog).id false borrowedCatalog) := by
  obtain ⟨h1, h2, h3⟩ := C8_return_never_not_borrowed
  obtain ⟨hflag, hsucc⟩ := h3 1 borrowedCatalog (by decide) (by decide)
  exact ⟨h2 1 duneCatalog (by decide), h1 1 duneCatalog, hflag, hsucc⟩

/-- Counterexample to C3 as stated: `addSampleBooks` (run on first startup
against an empty table, before any borrow can happen) creates its third
record with the borrowed flag already true, so not every book record has a
false flag at the moment it is created. -/
theorem C3_counterexample :
    (addSampleBooks []).getD 2 dummyBook =
      ⟨3, "Design Patterns", "Gang of Four", 1994, true⟩ ∧
    ((addSampleBooks []).getD 2 dummyBook).isBorrowed = true := by
  decide

/-- **C3** (amended): every book created through the interactive `addBook`
has its borrowed flag false at creation (only the startup seeding
`addSampleBooks` creates two records already flagged), and in any state a
book's flag changes only false→true through a successful borrow and only
true→false through a successful return: failed borrows/returns and adds
never change an existing book's flag. -/
theorem C3_flag_transitions :
    (∀ (t a : String) (y : Int) (s : Catalog) (b : Book) (s2 : Catalog),
      addBook t a y s = (.created b, s2) →
      b.isBorrowed = false ∧ s2 = s ++ [b]) ∧
    (∀ (n : Int) (s : Catalog) (i : Nat),
      ((borrowBook n s).2.getD i dummyBook).isBorrowed ≠
        (s.getD i dummyBook).isBorrowed →
      (s.getD i dummyBook).isBorrowed = false ∧
      ((borrowBook n s).2.getD i dummyBook).isBorrowed = true ∧
      (borrowBook n s).1 = .borrowed (selectedAvail n s)) ∧
    (∀ (n : Int) (s : Catalog) (i : Nat),
      ((returnBook n s).2.getD i dummyBook).isBorrowed ≠
        (s.getD i dummyBook).isBorrowed →
      (s.getD i dummyBook).isBorrowed = true ∧
      ((returnBook n s).2.getD i dummyBook).isBorrowed = false ∧
      (returnBook n s).1 = .returned (selectedBorrowed n s)) ∧
    (∀ (t a : String) (y : Int) (s : Catalog) (i : Nat), i < s.length →
      (addBook t a y s).2.getD i dummyBook = s.getD i dummyBook) := by
  refine ⟨?_, ?_, ?_, ?_⟩
  · intro t a y s b s2 h
    rcases addBook_cases t a y s with h0 | h0 <;> rw [h0] at h <;>
      rw [Prod.mk.injEq] at h
    · exact absurd h.1 (by simp)
    · obtain ⟨hb, hs⟩ := h
      rw [AddResult.created.injEq] at hb
      subst hb
      exact ⟨rfl, hs.symm⟩
  · intro n s i h
    rcases borrowBook_spec n s with ⟨h0, -⟩ | ⟨h0, -⟩ | ⟨-, -, -, h0⟩ <;>
      rw [h0] at h ⊢
    · exact absurd rfl h
    · exact absurd rfl h
    · obtain ⟨hnew, hold⟩ := setBorrowed_getD_flag h
      refine ⟨by simpa using hold, hnew, rfl⟩
  · intro n s i h
    rcases returnBook_spec n s with ⟨h0, -⟩ | ⟨h0, -⟩ | ⟨-, -, -, h0⟩ <;>
      rw [h0] at h ⊢
    · exact absurd rfl h
    · exact absurd rfl h
    · obtain ⟨hnew, hold⟩ := setBorrowed_getD_flag h
      refine ⟨by simpa using hold, hnew, rfl⟩
  · intro t a y s i hi
    rcases addBook_cases t a y s with h0 | h0 <;> rw [h0]
    have hi2 : i < (s ++ [(⟨nextId s, trimSpace t, trimSpace a, y, false⟩ : Book)]).length := by
      simp; omega
    rw [List.getD_eq_getElem _ _ hi2, List.getD_eq_getElem _ _ hi]
    exact List.getElem_append_left hi

/-- Witness for C3: the interactively added Dune book is created with flag
false, and borrowing it flips exactly that flag from false to true. -/
theorem C3_flag_transitions_witness :
    (⟨1, "Dune", "Frank Herbert", 1965, false⟩ : Book).isBorrowed = false ∧
    (duneCatalog.getD 0 dummyBook).isBorrowed = false ∧
    ((borrowBook 1 duneCatalog).2.getD 0 dummyBook).isBorrowed = true := by
  obtain ⟨h1, h2, -, -⟩ := C3_flag_transitions
  obtain ⟨hflag, -⟩ :=
    h1 "Dune" "Frank Herbert" 1965 [] ⟨1, "Dune", "Frank Herbert", 1965, false⟩
      [⟨1, "Dune", "Frank Herbert", 1965, false⟩] (by decide)
  obtain ⟨hold, hnew, -⟩ := h2 1 duneCatalog 0 (by decide)
  exact ⟨hflag, hold, hnew⟩

/-- Counterexample to C4 as stated: on a catalog of two available books
added in the order Alpha then Zulu, the displayed-before-borrow list
(title ascending) and the `listBooks` listing (creation time descending)
contain the same books in different orders, so the filtered displays do not
use the ordering that List uses. -/
theorem C4_counterexample :
    borrowedCount orderingDemo = 0 ∧
    availableBooks orderingDemo =
      [⟨1, "Alpha", "A", 2000, false⟩, ⟨2, "Zulu", "B", 2001, false⟩] ∧
    listBooks orderingDemo =
      [⟨2, "Zulu", "B", 2001, false⟩, ⟨1, "Alpha", "A", 2000, false⟩] ∧
    availableBooks orderingDemo ≠ listBooks orderingDemo := by
  decide

/-- **C4** (amended): the lists displayed before borrow and return are both
sorted by the same deterministic title ordering (`Order("title")`) and
together partition the catalog, while `listBooks` displays the catalog in a
different deterministic order, creation time descending
(`Order("created_at desc")`). -/
theorem C4_filtered_list_ordering (s : Catalog) :
    List.Sorted titleLe (availableBooks s) ∧
    List.Sorted titleLe (borrowedBooks s) ∧
    (availableBooks s ++ borrowedBooks s).Perm s ∧
    listBooks s = s.reverse := by
  refine ⟨List.sorted_insertionSort titleLe _, List.sorted_insertionSort titleLe _,
    ?_, rfl⟩
  have h1 : (availableBooks s).Perm (s.filter (fun b => !b.isBorrowed)) :=
    List.perm_insertionSort titleLe _
  have h2 : (borrowedBooks s).Perm (s.filter (fun b => b.isBorrowed)) :=
    List.perm_insertionSort titleLe _
  have h3 := List.filter_append_perm (fun b : Book => !b.isBorrowed) s
  have h4 : (fun b : Book => !(!b.isBorrowed)) = fun b : Book => b.isBorrowed := by
    funext b; simp
  rw [h4] at h3
  exact (h1.append h2).trans h3

/-- **C7**: in the `main.go` variant the package-level slice `book` is never
appended to — `addBook` only writes a database row through a local variable
that shadows the slice — so in every reachable state the slice is empty and
`listBooks`, `borrowBook` and `returnBook` all take their empty-catalog
branch, no matter how many adds have happened. -/
theorem C7_main_go_slice_stays_empty (s : MainGo.MainState)
    (h : MainGo.Reachable s) :
    s.book = [] ∧ MainGo.listBooks s = none ∧
    (∀ n : Int, (MainGo.borrowBook n s).1 = .noBooks ∧
      (MainGo.returnBook n s).1 = .noBooks) := by
  have hbook : s.book = [] := by
    induction h with
    | init => rfl
    | add t a y hs ih => exact ih
    | borrow n hs ih => simp [MainGo.borrowBook, ih]
    | ret n hs ih => simp [MainGo.returnBook, ih]
  refine ⟨hbook, ?_, ?_⟩
  · simp [MainGo.listBooks, hbook]
  · intro n
    exact ⟨by simp [MainGo.borrowBook, hbook], by simp [MainGo.returnBook, hbook]⟩

/-- Witness for C7: after a successful add of `("Dune","Frank
Herbert",1965)` from startup, the database holds the record but the global
slice is still empty and list/borrow take the empty branch. -/
theorem C7_main_go_slice_stays_empty_witness :
    (MainGo.addBook "Dune" "Frank Herbert" 1965 ⟨[], []⟩).dbBooks =
      [⟨1, "Dune", "Frank Herbert", 1965, false⟩] ∧
    (MainGo.addBook "Dune" "Frank Herbert" 1965 ⟨[], []⟩).book = [] ∧
    MainGo.listBooks (MainGo.addBook "Dune" "Frank Herbert" 1965 ⟨[], []⟩) = none ∧
    (MainGo.borrowBook 1 (MainGo.addBook "Dune" "Frank Herbert" 1965 ⟨[], []⟩)).1 =
      .noBooks := by
  obtain ⟨h1, h2, h3⟩ :=
    C7_main_go_slice_stays_empty _
      (MainGo.Reachable.add "Dune" "Frank Herbert" 1965 MainGo.Reachable.init)
  exact ⟨by decide, h1, h2, (h3 1).1⟩

/-- **C9**: borrow and return (successful or not) preserve the number of
books and, position by position, every book's identifier, title, author and
year — only the borrowed flag can change — and no operation of the DB-backed
variant ever deletes a book: every identifier present before a step is still
present after it. -/
theorem C9_operations_preserve_books :
    (∀ (n : Int) (s : Catalog),
      (borrowBook n s).2.length = s.length ∧
      ∀ i : Nat,
        ((borrowBook n s).2.getD i dummyBook).id = (s.getD i dummyBook).id ∧
        ((borrowBook n s).2.getD i dummyBook).title = (s.getD i dummyBook).title ∧
        ((borrowBook n s).2.getD i dummyBook).author = (s.getD i dummyBook).author ∧
        ((borrowBook n s).2.getD i dummyBook).year = (s.getD i dummyBook).year) ∧
    (∀ (n : Int) (s : Catalog),
      (returnBook n s).2.length = s.length ∧
      ∀ i : Nat,
        ((returnBook n s).2.getD i dummyBook).id = (s.getD i dummyBook).id ∧
        ((returnBook n s).2.getD i dummyBook).title = (s.getD i dummyBook).title ∧
        ((returnBook n s).2.getD i dummyBook).author = (s.getD i dummyBook).author ∧
        ((returnBook n s).2.getD i dummyBook).year = (s.getD i dummyBook).year) ∧
    (∀ (s s2 : Catalog), Step s s2 → ∀ b ∈ s, b.id ∈ catalogIds s2) := by
  refine ⟨?_, ?_, ?_⟩
  · intro n s
    rcases borrowBook_spec n s with ⟨h0, -⟩ | ⟨h0, -⟩ | ⟨-, -, -, h0⟩ <;> rw [h0]
    · exact ⟨rfl, fun i => ⟨rfl, rfl, rfl, rfl⟩⟩
    · exact ⟨rfl, fun i => ⟨rfl, rfl, rfl, rfl⟩⟩
    · exact ⟨length_setBorrowed _ _ _, fun i => setBorrowed_getD_frame _ _ _ i⟩
  · intro n s
    rcases returnBook_spec n s with ⟨h0, -⟩ | ⟨h0, -⟩ | ⟨-, -, -, h0⟩ <;> rw [h0]
    · exact ⟨rfl, fun i => ⟨rfl, rfl, rfl, rfl⟩⟩
    · exact ⟨rfl, fun i => ⟨rfl, rfl, rfl, rfl⟩⟩
    · exact ⟨length_setBorrowed _ _ _, fun i => setBorrowed_getD_frame _ _ _ i⟩
  · intro s s2 hstep b hb
    cases hstep with
    | add t a y =>
      rcases addBook_cases t a y s with h0 | h0 <;> simp only [h0]
      · exact List.mem_map_of_mem _ hb
      · unfold catalogIds
        rw [List.map_append]
        exact List.mem_append_left _ (List.mem_map_of_mem _ hb)
    | list => exact List.mem_map_of_mem _ hb
    | borrow n =>
      rcases borrowBook_spec n s with ⟨h0, -⟩ | ⟨h0, -⟩ | ⟨-, -, -, h0⟩ <;> rw [h0]
      · exact List.mem_map_of_mem _ hb
      · exact List.mem_map_of_mem _ hb
      · rw [catalogIds_setBorrowed]
        exact List.mem_map_of_mem _ hb
    | ret n =>
      rcases returnBook_spec n s with ⟨h0, -⟩ | ⟨h0, -⟩ | ⟨-, -, -, h0⟩ <;> rw [h0]
      · exact List.mem_map_of_mem _ hb
      · exact List.mem_map_of_mem _ hb
      · rw [catalogIds_setBorrowed]
        exact List.mem_map_of_mem _ hb

/-- Witness for C9: borrowing the Dune book keeps its title, the catalog
length, and its identifier (applied through a concrete `Step.borrow`). -/
theorem C9_operations_preserve_books_witness :
    ((borrowBook 1 duneCatalog).2.getD 0 dummyBook).title = "Dune" ∧
    (borrowBook 1 duneCatalog).2.length = duneCatalog.length ∧
    (1 : Nat) ∈ catalogIds (borrowBook 1 duneCatalog).2 := by
  obtain ⟨h1, -, h3⟩ := C9_operations_preserve_books
  obtain ⟨hlen, hpt⟩ := h1 1 duneCatalog
  refine ⟨?_, hlen, ?_⟩
  · rw [(hpt 0).2.1]
    decide
  · exact h3 duneCatalog _ (Step.borrow 1 duneCatalog)
      ⟨1, "Dune", "Frank Herbert", 1965, false⟩ (by decide)

/-- **C10**: in the `menuSelector` loop, choices 1-4 dispatch to add, list,
borrow and return respectively, choice 5 terminates the loop, any other
choice yields the invalid-option response after which the loop shows the
menu again and processes the next choice, and the loop terminates on a
finite input sequence exactly when that sequence contains the exit choice
5. -/
theorem C10_menu_selector_loop :
    menuStep 1 = .dispatched .add ∧
    menuStep 2 = .dispatched .list ∧
    menuStep 3 = .dispatched .borrow ∧
    menuStep 4 = .dispatched .ret ∧
    menuStep 5 = .exited ∧
    (∀ o : Int, o ≠ 1 → o ≠ 2 → o ≠ 3 → o ≠ 4 → o ≠ 5 → menuStep o = .invalid) ∧
    (∀ (o : Int) (rest : List Int),
      menuStep o = .invalid → menuSelector (o :: rest) = menuSelector rest) ∧
    (∀ inputs : List Int, (menuSelector inputs).isSome ↔ 5 ∈ inputs) := by
  refine ⟨by decide, by decide, by decide, by decide, by decide, ?_, ?_, ?_⟩
  · intro o h1 h2 h3 h4 h5
    unfold menuStep
    rw [if_neg h1, if_neg h2, if_neg h3, if_neg h4, if_neg h5]
  · intro o rest h
    simp only [menuSelector]
    rw [h]
  · intro inputs
    induction inputs with
    | nil => simp [menuSelector]
    | cons o rest ih =>
      by_cases h5 : o = 5
      · subst h5
        have hm : menuStep 5 = .exited := by decide
        simp [menuSelector, hm]
      · have h5m : ¬(5 : Int) = o := fun hx => h5 hx.symm
        cases hm : menuStep o with
        | exited => exact absurd ((menuStep_exited_iff o).mp hm) h5
        | dispatched a => simp [menuSelector, hm, ih, List.mem_cons, h5m]
        | invalid => simp [menuSelector, hm, ih, List.mem_cons, h5m]

/-- Witness for C10: 9 is an invalid choice after which the loop continues
with the next input; the sequence `[9, 3, 5]` terminates the loop (it
contains 5) while `[9, 3, 4]` leaves it running. -/
theorem C10_menu_selector_loop_witness :
    menuStep 9 = .invalid ∧
    menuSelector [9, 5] = menuSelector [5] ∧
    (menuSelector [9, 3, 5]).isSome = true ∧
    (menuSelector [9, 3, 4]).isSome = false := by
  obtain ⟨-, -, -, -, -, h6, h7, h8⟩ := C10_menu_selector_loop
  have h9 : menuStep 9 = .invalid :=
    h6 9 (by decide) (by decide) (by decide) (by decide) (by decide)
  refine ⟨h9, h7 9 [5] h9, (h8 [9, 3, 5]).mpr (by decide), ?_⟩
  have h10 := h8 [9, 3, 4]
  have h11 : ¬(5 : Int) ∈ ([9, 3, 4] : List Int) := by decide
  simp only [h11, iff_false, Bool.not_eq_true] at h10
  exact h10

end MiniLibrary
